import Mathlib

/-!
Verification of `rhel-ubuntu-automation` (RHEL-on-QEMU automation pipeline).

Shallow embedding of the pieces of the source the claims are about:
- `SSHConfigurator.connect` / `execute_command` / `configure_system`
  (src/ssh_configurator.py),
- the install-monitor loop and `debug_snapshot` of `QemuGenerator.run_install`
  (src/qemu_generator.py),
- the configuration loading / environment-variable override logic
  (src/main.py: `load_config`, `ensure_iso`).

External effects (the network, the remote host, the clock) are embedded as
oracles: a connection oracle `Nat → Bool` saying whether the i-th SSH
connection attempt succeeds, and an execution oracle `String → Int` giving
the remote exit status of each command.
-/

namespace RhelAutomation

/-! ## SSHConfigurator.connect (src/ssh_configurator.py, lines 14-36)

The Python loop `for i in range(retries)` tries to connect; on success it
returns True at once; on a retryable exception it sleeps `interval` seconds
and moves to the next iteration; after the loop it returns False.
The trace records the returned value, how many attempts were made and the
total seconds slept. -/

structure ConnectTrace where
  result : Bool
  attempts : Nat
  sleepSecs : Nat
  deriving Repr, DecidableEq

/-- The body of the `for i in range(retries)` loop, starting at iteration
index `i` with `fuel` iterations left.  `oracle j` tells whether the
connection attempt of iteration `j` succeeds. -/
def connectGo (oracle : Nat → Bool) (interval : Nat) : Nat → Nat → ConnectTrace
  | _, 0 => ⟨false, 0, 0⟩
  | i, fuel + 1 =>
    if oracle i then ⟨true, 1, 0⟩
    else
      let t := connectGo oracle interval (i + 1) fuel
      ⟨t.result, t.attempts + 1, t.sleepSecs + interval⟩

/-- `SSHConfigurator.connect(retries=30, interval=5)`. -/
def connect (oracle : Nat → Bool) (retries : Nat := 30) (interval : Nat := 5) :
    ConnectTrace :=
  connectGo oracle interval 0 retries

/-! ## SSHConfigurator.execute_command (lines 38-58)

If `self.ssh_client` is unset the method prints and returns False without
touching the remote host.  Otherwise it runs the command remotely and
returns whether its exit status is 0.  The second component of the result
records which commands were actually sent to the remote host. -/

def execute_command (ssh_client : Option Unit) (exec : String → Int)
    (command : String) (description : String) : Bool × List (String × String) :=
  match ssh_client with
  | none => (false, [])
  | some _ =>
    let exit_status := exec command
    (exit_status == 0, [(command, description)])

/-! ## SSHConfigurator.configure_system (lines 60-100) -/

/-- Python truthiness of `config.get('subscription', {}).get('username')`:
`None` and the empty string are falsy. -/
def pyTruthy : Option String → Bool
  | none => false
  | some s => s != ""

def regCmd (sub_user sub_pass : String) : String :=
  "subscription-manager register --username " ++ sub_user ++
    " --password " ++ sub_pass

def fw_cmds : List String :=
  ["sudo firewall-cmd --permanent --add-service=http",
   "sudo firewall-cmd --permanent --add-service=https",
   "sudo firewall-cmd --reload"]

def setup_page_cmd : String :=
  "cd /usr/share/nginx/html && " ++
  "sudo mv index.html index.html.bak 2>/dev/null || true && " ++
  "echo '<h1>Hello! Nginx is running on my RHEL VM.</h1>' | sudo tee index.html"

def verify_cmd : String :=
  "curl -s http://localhost | grep -q 'Nginx is running on my RHEL VM'"

/-- Trace of one `configure_system` pass: the steps executed on the remote
host (command, description) in order, and whether `ssh_client.close()` was
reached. -/
structure ConfigTrace where
  executed : List (String × String)
  closed : Bool
  deriving Repr, DecidableEq

/-- `SSHConfigurator.configure_system`.  `connOracle` drives the internal
`self.connect()` call (with its default arguments), `sub_user`/`sub_pass`
are `config['subscription']`'s optional fields, `exec` gives each remote
command's exit status.  After a successful `connect`, `self.ssh_client` is
set, hence `some ()` below. -/
def configure_system (connOracle : Nat → Bool) (sub_user sub_pass : Option String)
    (exec : String → Int) : ConfigTrace :=
  if !(connect connOracle).result then ⟨[], false⟩
  else
    let ssh_client : Option Unit := some ()
    let reg :=
      if pyTruthy sub_user && pyTruthy sub_pass && (sub_user != some "CHANGE_ME") then
        (execute_command ssh_client exec
          (regCmd (sub_user.getD "") (sub_pass.getD ""))
          "Registering Red Hat Subscription").2
      else []
    let upd := (execute_command ssh_client exec "sudo dnf update -y"
      "Updating system packages").2
    let inst := (execute_command ssh_client exec
      "sudo dnf install -y container-tools nginx" "Installing Podman and Nginx").2
    let enab := (execute_command ssh_client exec "sudo systemctl enable --now nginx"
      "Enabling and starting Nginx").2
    let fw := fw_cmds.flatMap fun cmd =>
      (execute_command ssh_client exec cmd ("Configuring firewall: " ++ cmd)).2
    let page := (execute_command ssh_client exec setup_page_cmd
      "Setting up custom Nginx landing page").2
    let verify := execute_command ssh_client exec verify_cmd
      "Verifying Nginx Installation"
    let podman :=
      if verify.1 then
        (execute_command ssh_client exec "podman --version" "Checking Podman version").2
      else []
    ⟨reg ++ upd ++ inst ++ enab ++ fw ++ page ++ verify.2 ++ podman, true⟩

/-- The unconditional provisioning steps of `configure_system`, in source
order (steps 2-7 of the spec's sequence). -/
def mandatorySteps : List (String × String) :=
  [("sudo dnf update -y", "Updating system packages"),
   ("sudo dnf install -y container-tools nginx", "Installing Podman and Nginx"),
   ("sudo systemctl enable --now nginx", "Enabling and starting Nginx"),
   ("sudo firewall-cmd --permanent --add-service=http",
    "Configuring firewall: sudo firewall-cmd --permanent --add-service=http"),
   ("sudo firewall-cmd --permanent --add-service=https",
    "Configuring firewall: sudo firewall-cmd --permanent --add-service=https"),
   ("sudo firewall-cmd --reload",
    "Configuring firewall: sudo firewall-cmd --reload"),
   (setup_page_cmd, "Setting up custom Nginx landing page"),
   (verify_cmd, "Verifying Nginx Installation")]

/-! ## QemuGenerator.run_install monitor loop (src/qemu_generator.py, lines 183-215)

The `while process.poll() is None` loop reads available output, prints a
heartbeat every 300 s, and — once `elapsed > 1800` and `ssh_checked` is
still false — calls `debug_snapshot()` and sets `ssh_checked = True`,
explicitly without killing the process.  We embed one loop iteration as a
step on the monitor's mutable state, given the elapsed wall-clock seconds
at that iteration, emitting the externally visible actions it performs. -/

inductive MonitorAction where
  | heartbeat (elapsed : Nat)
  | snapshot (elapsed : Nat)
  | kill
  deriving Repr, DecidableEq

structure MonitorState where
  ssh_checked : Bool
  lastStatusElapsed : Nat
  deriving Repr, DecidableEq

/-- The initial monitor state right after `Popen`: `ssh_checked = False`,
`last_status_time = start_time`. -/
def initMonitorState : MonitorState := ⟨false, 0⟩

/-- One iteration of the monitor loop at elapsed time `elapsed`
(output relaying, which performs no state change, is omitted). -/
def monitorStep (s : MonitorState) (elapsed : Nat) :
    MonitorState × List MonitorAction :=
  let (s₁, heart) :=
    if elapsed - s.lastStatusElapsed ≥ 300 then
      ({ s with lastStatusElapsed := elapsed }, [MonitorAction.heartbeat elapsed])
    else (s, [])
  if !s₁.ssh_checked && decide (elapsed > 1800) then
    ({ s₁ with ssh_checked := true }, heart ++ [MonitorAction.snapshot elapsed])
  else (s₁, heart)

/-- Run the monitor loop over the successive elapsed times of its
iterations (the subprocess stays alive throughout the list). -/
def runMonitor (s : MonitorState) : List Nat → MonitorState × List MonitorAction
  | [] => (s, [])
  | e :: es =>
    let (s', acts) := monitorStep s e
    let (s'', rest) := runMonitor s' es
    (s'', acts ++ rest)

/-- After the loop: `if process.returncode != 0: sys.exit(process.returncode)`
(src/qemu_generator.py, lines 213-215). -/
inductive InstallOutcome where
  | ok
  | abort (code : Int)
  deriving Repr, DecidableEq

def run_install_outcome (returncode : Int) : InstallOutcome :=
  if returncode != 0 then InstallOutcome.abort returncode else InstallOutcome.ok

/-! ## QemuGenerator.debug_snapshot (lines 217-241)

The whole body sits in `try: ... except Exception as e: print(...)`:
whatever the `sshpass`/`ssh` diagnostic invocation does — succeed, or raise
for a refused connection, timeout, authentication failure or non-zero exit
(`subprocess.check_call` raises on non-zero) — the method logs and returns
normally.  The caller-visible result type is `Except` so that propagation
of a failure would be representable; the theorem shows it never happens. -/

inductive SshError where
  | connRefused
  | timeout
  | authFailure
  | nonZeroExit (code : Int)
  deriving Repr, DecidableEq

structure SnapshotResult where
  loggedFailure : Bool
  deriving Repr, DecidableEq

def debug_snapshot (remote : Except SshError Unit) :
    Except SshError SnapshotResult :=
  match remote with
  | Except.ok _ => Except.ok ⟨false⟩
  | Except.error _ => Except.ok ⟨true⟩

/-! ## Configuration loading and environment overrides (src/main.py)

`load_config` (lines 13-34) reads the YAML mapping and applies the four
credential overrides `RHEL_SSH_USER`, `RHEL_SSH_PASS`, `RHEL_SUB_USER`,
`RHEL_SUB_PASS`.  `ensure_iso` (lines 44-119) later computes
`os.environ.get("RHEL_SFTP_HOST") or download_cfg['sftp'].get('host')` and
`os.environ.get("RHEL_ISO_URL") or download_cfg.get('url')`: it reads the
process environment again, after load, and lets it take precedence over the
configuration's download fields (without writing into the mapping). -/

structure Config where
  sshUser : String
  sshPassword : String
  subUsername : Option String
  subPassword : Option String
  sftpHost : Option String
  downloadUrl : Option String
  deriving Repr, DecidableEq

/-- Python `os.environ.get(k)`: absent keys give `None`. -/
abbrev Env := String → Option String

/-- `if os.environ.get(k): ...` — the override fires only when the value is
truthy (present and non-empty). -/
def envTruthy (env : Env) (k : String) : Bool :=
  pyTruthy (env k)

/-- `load_config`'s environment-variable override pass over the mapping
read from `config.yaml`. -/
def load_config (env : Env) (fileCfg : Config) : Config :=
  let c := fileCfg
  let c := if envTruthy env "RHEL_SSH_USER" then
    { c with sshUser := (env "RHEL_SSH_USER").getD c.sshUser } else c
  let c := if envTruthy env "RHEL_SSH_PASS" then
    { c with sshPassword := (env "RHEL_SSH_PASS").getD c.sshPassword } else c
  let c := if envTruthy env "RHEL_SUB_USER" then
    { c with subUsername := env "RHEL_SUB_USER" } else c
  let c := if envTruthy env "RHEL_SUB_PASS" then
    { c with subPassword := env "RHEL_SUB_PASS" } else c
  c

/-- Python `x or y` for optional strings: `x` when truthy, else `y`. -/
def pyOr (x y : Option String) : Option String :=
  if pyTruthy x then x else y

/-- The SFTP host `ensure_iso` actually uses (line 49):
`os.environ.get("RHEL_SFTP_HOST") or download_cfg['sftp'].get('host')`. -/
def ensure_iso_sftp_host (env : Env) (cfg : Config) : Option String :=
  pyOr (env "RHEL_SFTP_HOST") cfg.sftpHost

/-- The HTTP URL `ensure_iso` actually uses (line 113):
`os.environ.get("RHEL_ISO_URL") or download_cfg.get('url')`. -/
def ensure_iso_url (env : Env) (cfg : Config) : Option String :=
  pyOr (env "RHEL_ISO_URL") cfg.downloadUrl

/-! ## Lemmas about the connection retry loop -/

/-- If every attempt from index `i` on fails, the loop runs out its fuel:
`fuel` attempts, `fuel * interval` seconds of sleep, result `false`. -/
lemma connectGo_all_fail (oracle : Nat → Bool) (interval : Nat)
    (i fuel : Nat) (h : ∀ k, oracle k = false) :
    connectGo oracle interval i fuel = ⟨false, fuel, fuel * interval⟩ := by
  induction fuel generalizing i with
  | zero => simp [connectGo]
  | succ n ih =>
    simp [connectGo, h i, ih (i + 1), Nat.succ_mul]

/-- If the attempts at indices `i, i+1, …, i+k-1` fail and the attempt at
index `i + k` succeeds (with `k` strictly below the remaining fuel), the
loop returns `true` after exactly `k + 1` attempts and `k` sleeps. -/
lemma connectGo_first_success (oracle : Nat → Bool) (interval : Nat) :
    ∀ k i fuel, k < fuel → oracle (i + k) = true →
      (∀ j, j < k → oracle (i + j) = false) →
      connectGo oracle interval i fuel = ⟨true, k + 1, k * interval⟩ := by
  intro k
  induction k with
  | zero =>
    intro i fuel hfuel hsucc _
    match fuel, hfuel with
    | f + 1, _ => simp [connectGo, Nat.add_zero] at hsucc ⊢; simp [hsucc]
  | succ n ih =>
    intro i fuel hfuel hsucc hfail
    match fuel, hfuel with
    | f + 1, hfuel =>
      have h0 : oracle i = false := by
        have := hfail 0 (Nat.succ_pos n); simpa using this
      have hrec : connectGo oracle interval (i + 1) f = ⟨true, n + 1, n * interval⟩ := by
        apply ih
        · exact Nat.lt_of_succ_lt_succ hfuel
        · have : i + 1 + n = i + (n + 1) := by omega
          rw [this]; exact hsucc
        · intro j hj
          have : i + 1 + j = i + (j + 1) := by omega
          rw [this]; exact hfail (j + 1) (Nat.succ_lt_succ hj)
      simp [connectGo, h0, hrec, Nat.succ_mul]

/-- C1: If every connection attempt fails, `connect` with retry count `N` and
interval `I` makes exactly `N` attempts, sleeps `I` seconds after each of
them (total `N * I`), returns `false`, and `configure_system` (whose
internal `connect()` then also fails) executes no provisioning step. -/
theorem connect_exhaustion_then_no_steps
    (N I : Nat) (oracle : Nat → Bool) (h : ∀ k, oracle k = false)
    (su sp : Option String) (exec : String → Int) :
    connect oracle N I = ⟨false, N, N * I⟩ ∧
    (configure_system oracle su sp exec).executed = [] := by
  constructor
  · exact connectGo_all_fail oracle I 0 N h
  · simp [configure_system, connect, connectGo_all_fail oracle 5 0 30 h]

theorem connect_exhaustion_then_no_steps_witness :
    (∀ k : Nat, (fun _ : Nat => false) k = false) ∧
    (connect (fun _ => false) 3 7 = ⟨false, 3, 3 * 7⟩ ∧
     (configure_system (fun _ => false) (some "u") (some "p")
        (fun _ => 0)).executed = []) :=
  ⟨fun _ => rfl,
   connect_exhaustion_then_no_steps 3 7 (fun _ => false) (fun _ => rfl)
     (some "u") (some "p") (fun _ => 0)⟩

/-- C2: If the first `k - 1` connection attempts fail and the `k`-th succeeds
(1-based, `1 ≤ k ≤ N`), `connect` returns `true` immediately: exactly `k`
attempts happen (none of the attempts `k+1 … N`), and only `k - 1` sleeps
of `I` seconds occur — none after the successful attempt. -/
theorem connect_stops_at_first_success
    (N I k : Nat) (oracle : Nat → Bool) (hk1 : 1 ≤ k) (hkN : k ≤ N)
    (hsucc : oracle (k - 1) = true)
    (hfail : ∀ j, j < k - 1 → oracle j = false) :
    connect oracle N I = ⟨true, k, (k - 1) * I⟩ := by
  have hk : k - 1 < N := by omega
  have := connectGo_first_success oracle I (k - 1) 0 N hk
    (by simpa using hsucc) (by intro j hj; simpa using hfail j hj)
  have hkk : k - 1 + 1 = k := by omega
  rw [connect, this, hkk]

theorem connect_stops_at_first_success_witness :
    (1 ≤ 2 ∧ 2 ≤ 30 ∧ (fun i : Nat => i == 1) (2 - 1) = true ∧
      (∀ j, j < 2 - 1 → (fun i : Nat => i == 1) j = false)) ∧
    connect (fun i => i == 1) 30 5 = ⟨true, 2, (2 - 1) * 5⟩ :=
  ⟨⟨by omega, by omega, rfl, by decide⟩,
   connect_stops_at_first_success 30 5 2 (fun i => i == 1)
     (by omega) (by omega) rfl (by decide)⟩

/-- C10: `execute_command` with no established SSH connection
(`self.ssh_client` unset) returns `False` for every command and
description, executes nothing on the remote host, and (being a total
function) does not raise. -/
theorem execute_command_unconnected
    (exec : String → Int) (command description : String) :
    execute_command none exec command description = (false, []) := rfl

/-- C7: `debug_snapshot` never raises to its caller: for every outcome of
the remote diagnostic invocation — success or any failure (connection
refused, timeout, auth failure, non-zero exit raised by `check_call`) — it
returns normally (`Except.ok`), logging the failure exactly on the failure
outcomes.  (The monitor loop's continuation afterwards is the `runMonitor`
recursion, which proceeds unconditionally after a `snapshot` action.) -/
theorem debug_snapshot_never_raises (remote : Except SshError Unit) :
    debug_snapshot remote =
      Except.ok ⟨match remote with
                 | Except.ok _ => false
                 | Except.error _ => true⟩ := by
  cases remote <;> rfl

/-- C8: after the monitor loop, a non-zero subprocess exit code makes
`run_install` abort the pipeline via `sys.exit` with exactly the same
numeric code, and exit code 0 returns normally. -/
theorem run_install_exit_code (returncode : Int) :
    run_install_outcome returncode =
      if returncode = 0 then InstallOutcome.ok
      else InstallOutcome.abort returncode := by
  by_cases h : returncode = 0 <;> simp [run_install_outcome, h]

/-! ## Lemmas about the provisioning sequence -/

/-- Normal form of a `configure_system` pass whose internal `connect()`
succeeded: the optional registration step, then the eight unconditional
steps, then the conditional `podman --version` confirmation; the session
is closed. -/
lemma configure_system_connected (connOracle : Nat → Bool)
    (su sp : Option String) (exec : String → Int)
    (h : (connect connOracle).result = true) :
    configure_system connOracle su sp exec =
      ⟨(if pyTruthy su && pyTruthy sp && (su != some "CHANGE_ME") then
          [(regCmd (su.getD "") (sp.getD ""), "Registering Red Hat Subscription")]
        else []) ++ mandatorySteps ++
        (if exec verify_cmd == 0 then
          [("podman --version", "Checking Podman version")]
        else []),
       true⟩ := by
  simp only [configure_system, h, Bool.not_true, Bool.false_eq_true, if_false,
    execute_command, fw_cmds, mandatorySteps]
  by_cases hr : (pyTruthy su && pyTruthy sp && (su != some "CHANGE_ME")) = true <;>
    by_cases hv : (exec verify_cmd == 0) = true <;>
      simp [hr, hv]

/-- C4: once `connect` has succeeded, every unconditional provisioning step
is executed in order regardless of the exit statuses the remote commands
return, and the SSH session is closed at the end on every path. -/
theorem configure_system_runs_all_steps (connOracle : Nat → Bool)
    (su sp : Option String) (exec : String → Int)
    (h : (connect connOracle).result = true) :
    mandatorySteps.Sublist (configure_system connOracle su sp exec).executed ∧
    (configure_system connOracle su sp exec).closed = true := by
  rw [configure_system_connected connOracle su sp exec h]
  exact ⟨(List.sublist_append_right _ _).trans (List.sublist_append_left _ _), rfl⟩

theorem configure_system_runs_all_steps_witness :
    (connect (fun _ => true)).result = true ∧
    (mandatorySteps.Sublist
        (configure_system (fun _ => true) none none (fun _ => 1)).executed ∧
      (configure_system (fun _ => true) none none (fun _ => 1)).closed = true) :=
  ⟨rfl, configure_system_runs_all_steps (fun _ => true) none none (fun _ => 1) rfl⟩

/-- The claim's skip condition for subscription registration: username or
password empty/absent, or username equal to the `CHANGE_ME` sentinel. -/
def regSkipCond (su sp : Option String) : Prop :=
  su = none ∨ su = some "" ∨ sp = none ∨ sp = some "" ∨ su = some "CHANGE_ME"

instance (su sp : Option String) : Decidable (regSkipCond su sp) := by
  unfold regSkipCond; infer_instance

/-- The code's registration guard holds exactly when the claim's skip
condition fails. -/
lemma regCond_iff (su sp : Option String) :
    (pyTruthy su && pyTruthy sp && (su != some "CHANGE_ME")) = true ↔
      ¬ regSkipCond su sp := by
  cases su <;> cases sp <;>
    simp [pyTruthy, regSkipCond, not_or, and_assoc]

/-- C5: the subscription-registration step is skipped iff the username or
password is empty/absent or the username is the `CHANGE_ME` sentinel;
otherwise it is executed exactly once, as the first step of the
sequence. -/
theorem subscription_registration_iff (connOracle : Nat → Bool)
    (su sp : Option String) (exec : String → Int)
    (h : (connect connOracle).result = true) :
    ((configure_system connOracle su sp exec).executed.filter
        (fun s => s.2 == "Registering Red Hat Subscription")).length =
      (if regSkipCond su sp then 0 else 1) ∧
    (¬ regSkipCond su sp →
      (configure_system connOracle su sp exec).executed.head? =
        some (regCmd (su.getD "") (sp.getD ""),
          "Registering Red Hat Subscription")) := by
  rw [configure_system_connected connOracle su sp exec h]
  by_cases hc : regSkipCond su sp
  · have hb : (pyTruthy su && pyTruthy sp && (su != some "CHANGE_ME")) = false := by
      rw [← Bool.not_eq_true, regCond_iff]; exact not_not_intro hc
    by_cases hv : (exec verify_cmd == 0) = true <;>
      simp [hb, hv, hc, mandatorySteps]
  · have hb : (pyTruthy su && pyTruthy sp && (su != some "CHANGE_ME")) = true :=
      (regCond_iff su sp).mpr hc
    by_cases hv : (exec verify_cmd == 0) = true <;>
      simp [hb, hv, hc, mandatorySteps]

theorem subscription_registration_iff_witness :
    (connect (fun _ => true)).result = true ∧
    (((configure_system (fun _ => true) (some "alice") (some "secret")
          (fun _ => 0)).executed.filter
        (fun s => s.2 == "Registering Red Hat Subscription")).length = 1 ∧
      (configure_system (fun _ => true) (some "alice") (some "secret")
          (fun _ => 0)).executed.head? =
        some (regCmd "alice" "secret", "Registering Red Hat Subscription")) := by
  have h := subscription_registration_iff (fun _ => true) (some "alice")
    (some "secret") (fun _ => 0) rfl
  refine ⟨rfl, ?_, h.2 (by decide)⟩
  rw [h.1, if_neg (by decide)]

/-- C6: the `podman --version` secondary confirmation is executed iff the
landing-page verification command's remote exit status is exactly 0. -/
theorem podman_check_iff_verify (connOracle : Nat → Bool)
    (su sp : Option String) (exec : String → Int)
    (h : (connect connOracle).result = true) :
    ("podman --version", "Checking Podman version") ∈
        (configure_system connOracle su sp exec).executed ↔
      exec verify_cmd = 0 := by
  rw [configure_system_connected connOracle su sp exec h]
  by_cases hb : (pyTruthy su && pyTruthy sp && (su != some "CHANGE_ME")) = true <;>
    by_cases hv : (exec verify_cmd == 0) = true <;>
      simp_all [mandatorySteps, beq_iff_eq]

theorem podman_check_iff_verify_witness :
    (connect (fun _ => true)).result = true ∧
    (("podman --version", "Checking Podman version") ∈
        (configure_system (fun _ => true) none none (fun _ => 0)).executed ↔
      (fun _ : String => (0 : Int)) verify_cmd = 0) :=
  ⟨rfl, podman_check_iff_verify (fun _ => true) none none (fun _ => 0) rfl⟩

/-! ## Lemmas about the install-monitor loop -/

def isSnapshot : MonitorAction → Bool
  | MonitorAction.snapshot _ => true
  | _ => false

/-- What one monitor iteration does: it emits the snapshot action exactly
when the flag is still clear and more than 1800 s have elapsed (setting the
flag), and it never emits a kill. -/
lemma monitorStep_spec (s : MonitorState) (e : Nat) :
    (monitorStep s e).2.filter isSnapshot =
      (if s.ssh_checked = false ∧ 1800 < e then [MonitorAction.snapshot e] else []) ∧
    (monitorStep s e).1.ssh_checked = (s.ssh_checked || decide (1800 < e)) ∧
    MonitorAction.kill ∉ (monitorStep s e).2 := by
  unfold monitorStep
  rcases s with ⟨sc, ls⟩
  by_cases h1 : e - ls ≥ 300 <;> cases sc <;> by_cases h3 : 1800 < e <;>
    simp [h1, h3, isSnapshot]

lemma runMonitor_cons (s : MonitorState) (e : Nat) (es : List Nat) :
    runMonitor s (e :: es) =
      ((runMonitor (monitorStep s e).1 es).1,
       (monitorStep s e).2 ++ (runMonitor (monitorStep s e).1 es).2) := rfl

/-- Loop invariant: starting from state `s`, at most one snapshot is
emitted (none if the flag is already set), each only past the 1800 s
threshold, and the loop never kills the subprocess. -/
lemma runMonitor_invariant (es : List Nat) : ∀ s : MonitorState,
    ((runMonitor s es).2.filter isSnapshot).length ≤
      (if s.ssh_checked then 0 else 1) ∧
    (∀ e, MonitorAction.snapshot e ∈ (runMonitor s es).2 → 1800 < e) ∧
    MonitorAction.kill ∉ (runMonitor s es).2 := by
  induction es with
  | nil =>
    intro s
    refine ⟨?_, by simp [runMonitor], by simp [runMonitor]⟩
    simp only [runMonitor, List.filter_nil, List.length_nil]
    split <;> omega
  | cons e es ih =>
    intro s
    obtain ⟨hf, hs, hk⟩ := monitorStep_spec s e
    obtain ⟨ih1, ih2, ih3⟩ := ih (monitorStep s e).1
    rw [runMonitor_cons]
    refine ⟨?_, ?_, ?_⟩
    · rw [List.filter_append, List.length_append, hf]
      rw [hs] at ih1
      by_cases h2 : s.ssh_checked = true
      · rw [h2] at ih1 ⊢
        rw [if_neg (by simp)]
        simpa using ih1
      · have h2' : s.ssh_checked = false := by simpa using h2
        rw [h2'] at ih1 ⊢
        by_cases h3 : 1800 < e
        · rw [if_pos ⟨rfl, h3⟩]
          simp only [decide_eq_true h3, Bool.false_or, if_true] at ih1
          simpa using ih1
        · rw [if_neg (by simp [h3])]
          simp only [decide_eq_false h3, Bool.or_false] at ih1
          simpa using ih1
    · intro e' he'
      rcases List.mem_append.mp he' with hacts | hrest
      · have : MonitorAction.snapshot e' ∈ (monitorStep s e).2.filter isSnapshot :=
          List.mem_filter.mpr ⟨hacts, rfl⟩
        rw [hf] at this
        split at this
        · rename_i hcond
          rcases List.mem_singleton.mp this with h
          injection h with h; omega
        · exact absurd this (List.not_mem_nil _)
      · exact ih2 e' hrest
    · intro hmem
      rcases List.mem_append.mp hmem with hacts | hrest
      · exact hk hacts
      · exact ih3 hrest

/-- C3: over every schedule of monitor-loop iterations, the hang-diagnostic
capture (`debug_snapshot`) is invoked at most once, only at iterations
where more than 1800 s (30 min) of wall-clock time have elapsed since
launch, and the monitor never kills or terminates the monitored
subprocess. -/
theorem hang_check_single_shot (elapsedTimes : List Nat) :
    ((runMonitor initMonitorState elapsedTimes).2.filter isSnapshot).length ≤ 1 ∧
    (∀ e, MonitorAction.snapshot e ∈ (runMonitor initMonitorState elapsedTimes).2 →
      1800 < e) ∧
    MonitorAction.kill ∉ (runMonitor initMonitorState elapsedTimes).2 := by
  have h := runMonitor_invariant elapsedTimes initMonitorState
  simpa [initMonitorState] using h

/-! ## Configuration loading and post-load environment reads -/

/-- A concrete environment setting only `RHEL_SFTP_HOST`, and a concrete
file configuration whose download section names a different SFTP host. -/
def envWithSftpHost : Env :=
  fun k => if k = "RHEL_SFTP_HOST" then some "sftp.from-env.example" else none

def cfgWithSftpHost : Config :=
  ⟨"rheluser", "rhelpass", none, none, some "sftp.from-config.example", none⟩

/-- C9 counterexample: after `load_config` has returned, the loaded
mapping's SFTP host field still reads `sftp.from-config.example`, yet
`ensure_iso` consults the environment again and uses
`sftp.from-env.example` instead — a component of the pipeline reads an
environment variable after load to override a configuration field,
contradicting the claim. -/
theorem env_read_after_load_counterexample :
    (load_config envWithSftpHost cfgWithSftpHost).sftpHost =
        some "sftp.from-config.example" ∧
    ensure_iso_sftp_host envWithSftpHost
        (load_config envWithSftpHost cfgWithSftpHost) =
      some "sftp.from-env.example" := by
  constructor <;> rfl

/-- C9 (amended): `load_config` applies the environment overrides of the
four credential fields and leaves the download fields of the mapping
untouched (in particular `ensure_iso` never writes into the mapping — it
only computes which host/URL to use); however, at download time
`ensure_iso` re-reads the environment, and a truthy `RHEL_SFTP_HOST` or
`RHEL_ISO_URL` takes precedence over the loaded configuration's download
fields, which are used only when the environment value is absent or
empty. -/
theorem config_env_override_behavior (env : Env) (fileCfg : Config) :
    (load_config env fileCfg).sftpHost = fileCfg.sftpHost ∧
    (load_config env fileCfg).downloadUrl = fileCfg.downloadUrl ∧
    (envTruthy env "RHEL_SFTP_HOST" = true →
      ensure_iso_sftp_host env (load_config env fileCfg) = env "RHEL_SFTP_HOST") ∧
    (envTruthy env "RHEL_SFTP_HOST" = false →
      ensure_iso_sftp_host env (load_config env fileCfg) = fileCfg.sftpHost) ∧
    (envTruthy env "RHEL_ISO_URL" = true →
      ensure_iso_url env (load_config env fileCfg) = env "RHEL_ISO_URL") ∧
    (envTruthy env "RHEL_ISO_URL" = false →
      ensure_iso_url env (load_config env fileCfg) = fileCfg.downloadUrl) := by
  have hload : (load_config env fileCfg).sftpHost = fileCfg.sftpHost ∧
      (load_config env fileCfg).downloadUrl = fileCfg.downloadUrl := by
    unfold load_config
    by_cases h1 : envTruthy env "RHEL_SSH_USER" = true <;>
      by_cases h2 : envTruthy env "RHEL_SSH_PASS" = true <;>
        by_cases h3 : envTruthy env "RHEL_SUB_USER" = true <;>
          by_cases h4 : envTruthy env "RHEL_SUB_PASS" = true <;>
            simp [h1, h2, h3, h4]
  refine ⟨hload.1, hload.2, ?_, ?_, ?_, ?_⟩
  · intro h
    unfold envTruthy at h
    unfold ensure_iso_sftp_host pyOr
    rw [if_pos h]
  · intro h
    unfold envTruthy at h
    unfold ensure_iso_sftp_host pyOr
    rw [if_neg (by simp [h]), hload.1]
  · intro h
    unfold envTruthy at h
    unfold ensure_iso_url pyOr
    rw [if_pos h]
  · intro h
    unfold envTruthy at h
    unfold ensure_iso_url pyOr
    rw [if_neg (by simp [h]), hload.2]

theorem config_env_override_behavior_witness :
    envTruthy envWithSftpHost "RHEL_SFTP_HOST" = true ∧
    envTruthy envWithSftpHost "RHEL_ISO_URL" = false ∧
    (ensure_iso_sftp_host envWithSftpHost
        (load_config envWithSftpHost cfgWithSftpHost) =
      envWithSftpHost "RHEL_SFTP_HOST") ∧
    ensure_iso_url envWithSftpHost
        (load_config envWithSftpHost cfgWithSftpHost) =
      cfgWithSftpHost.downloadUrl := by
  have h := config_env_override_behavior envWithSftpHost cfgWithSftpHost
  exact ⟨rfl, rfl, h.2.2.1 rfl, h.2.2.2.2.2 rfl⟩

end RhelAutomation
